import Mathlib

/-!
Verification of the store_manager persistence layer (`src/db.rs`,
`src/structs.rs`, `src/db_filler.rs`).

Shallow embedding choices:
* The SQLite store is modelled as a `Store` holding the rows of the
  `employees` and `products` tables plus the AUTOINCREMENT counters.
* Rust `f64` columns (REAL) are modelled as exact rationals `Rat`;
  the code only ever passes them through and compares them with SQL `=`.
* `chrono::NaiveDate` is modelled as a `Date` triple; its stored TEXT
  encoding is injective on valid dates, so the row keeps the date value.
* Rust `u32` fields are modelled as `Nat`; the `v as u32` narrowing cast
  on an `i64` read from the store is `(v % 2^32).toNat` (two's-complement
  truncation, identical to the Rust cast).
* The SQL fragments pushed by the builders become inductive condition /
  assignment descriptions carrying the SQL text fragment, the bound
  parameter and its row-level meaning.  `LIKE` follows SQLite's default
  semantics: `%` matches any sequence, `_` any single character, and
  ASCII letters compare case-insensitively.
* SQL `=` against a NULL column is not TRUE, so a NULL column never
  matches an equality filter.
-/

/-- A calendar date (model of `chrono::NaiveDate`). -/
structure Date where
  year : Int
  month : Nat
  day : Nat
deriving DecidableEq, Repr

/-- A value bound as a SQL parameter by `sqlx` (`args.add(..)` / `.bind(..)`). -/
inductive Value where
  | int (i : Int)
  | real (r : Rat)
  | text (s : String)
  | date (d : Date)
deriving DecidableEq, Repr

/-- `structs.rs`: `Employee` — every field independently optional. -/
structure Employee where
  id           : Option Nat
  name         : Option String
  surname      : Option String
  position     : Option String
  department   : Option String
  shift        : Option String
  salary       : Option Rat
  phone_number : Option String
  email        : Option String
  status       : Option Bool
  note         : Option String
  hire_date    : Option Date
deriving DecidableEq, Repr

/-- `structs.rs`: `Product` — every field independently optional. -/
structure Product where
  id          : Option Nat
  name        : Option String
  category    : Option String
  quantity    : Option Nat
  status      : Option Bool
  bar_code    : Option Int
  cost_price  : Option Rat
  sell_price  : Option Rat
  description : Option String
  brand       : Option String
  supplier    : Option String
  employee_id : Option Nat
  date_added  : Option Date
  date_remove : Option Date
deriving DecidableEq, Repr

/-- `Employee::new_empty()` — all fields `None`. -/
def emptyEmp : Employee :=
  ⟨none, none, none, none, none, none, none, none, none, none, none, none⟩

/-- `Product::new_empty()` — all fields `None`. -/
def emptyProd : Product :=
  ⟨none, none, none, none, none, none, none, none, none, none, none, none, none, none⟩

/-- A stored row of the `employees` table.  `id`, `name`, `surname`,
`position` are NOT NULL in the schema; the remaining columns are nullable.
`status` is a raw stored INTEGER, `salary` a REAL, `hire_date` a TEXT date. -/
structure EmployeeRow where
  id           : Int
  name         : String
  surname      : String
  position     : String
  department   : Option String
  shift        : Option String
  salary       : Option Rat
  phone_number : Option String
  email        : Option String
  status       : Option Int
  note         : Option String
  hire_date    : Option Date
deriving DecidableEq, Repr

/-- A stored row of the `products` table.  `id`, `name`, `category`,
`quantity`, `bar_code`, `cost_price`, `sell_price` are NOT NULL. -/
structure ProductRow where
  id          : Int
  name        : String
  category    : String
  quantity    : Int
  status      : Option Int
  bar_code    : Int
  cost_price  : Rat
  sell_price  : Rat
  description : Option String
  brand       : Option String
  supplier    : Option String
  employee_id : Option Int
  date_added  : Option Date
  date_remove : Option Date
deriving DecidableEq, Repr

/-- The SQLite store: both tables plus the AUTOINCREMENT counters. -/
structure Store where
  employees : List EmployeeRow
  products : List ProductRow
  nextEmpId : Int
  nextProdId : Int
deriving DecidableEq, Repr

/-- A freshly created database (`StoreDB::new` on a missing file). -/
def emptyStore : Store := ⟨[], [], 1, 1⟩

/-- ASCII lower-casing, as applied by SQLite's default `LIKE`. -/
def asciiLower (c : Char) : Char :=
  if 'A' ≤ c ∧ c ≤ 'Z' then Char.ofNat (c.toNat + 32) else c

/-- SQLite `LIKE` matching: `%` matches any sequence, `_` any single
character, other characters compare ASCII-case-insensitively. -/
def likeMatch : List Char → List Char → Bool
  | [], s => s.isEmpty
  | '%' :: ps, s => (List.range (s.length + 1)).any fun k => likeMatch ps (s.drop k)
  | '_' :: ps, s =>
    match s with
    | [] => false
    | _ :: cs => likeMatch ps cs
  | p :: ps, s =>
    match s with
    | [] => false
    | c :: cs => (asciiLower p == asciiLower c) && likeMatch ps cs

/-- The `LIKE` pattern built by the source: `format!("%{}%", s)`. -/
def likePat (s : String) : String := "%" ++ s ++ "%"

/-- Does `hay` match `LIKE '%s%'`? -/
def likeContains (s hay : String) : Bool := likeMatch (likePat s).toList hay.toList

/-- One condition appended by `get_employees` (`db.rs` lines 189–206):
each carries the filter value the code moved into the argument list. -/
inductive EmpCond where
  | cid (v : Nat)
  | cname (v : String)
  | csurname (v : String)
  | cposition (v : String)
  | cdepartment (v : String)
  | cshift (v : String)
  | csalary (v : Rat)
  | cphone (v : String)
  | cemail (v : String)
  | cstatus (v : Bool)
  | cnote (v : String)
  | chire (v : Date)
deriving DecidableEq, Repr

namespace EmpCond

/-- The SQL fragment `push_str`-ed onto the query for this condition. -/
def frag : EmpCond → String
  | cid _ => " AND id = ?"
  | cname _ => " AND name LIKE ?"
  | csurname _ => " AND surname LIKE ?"
  | cposition _ => " AND position = ?"
  | cdepartment _ => " AND department = ?"
  | cshift _ => " AND shift = ?"
  | csalary _ => " AND salary = ?"
  | cphone _ => " AND phone_number = ?"
  | cemail _ => " AND email = ?"
  | cstatus _ => " AND status = ?"
  | cnote _ => " AND note LIKE ?"
  | chire _ => " AND hire_date = ?"

/-- The column the condition constrains. -/
def col : EmpCond → String
  | cid _ => "id"
  | cname _ => "name"
  | csurname _ => "surname"
  | cposition _ => "position"
  | cdepartment _ => "department"
  | cshift _ => "shift"
  | csalary _ => "salary"
  | cphone _ => "phone_number"
  | cemail _ => "email"
  | cstatus _ => "status"
  | cnote _ => "note"
  | chire _ => "hire_date"

/-- The parameter bound for the condition (`args.add(..)`); `LIKE`
conditions bind `format!("%{}%", v)`, booleans bind 1/0. -/
def value : EmpCond → Value
  | cid v => .int v
  | cname v => .text (likePat v)
  | csurname v => .text (likePat v)
  | cposition v => .text v
  | cdepartment v => .text v
  | cshift v => .text v
  | csalary v => .real v
  | cphone v => .text v
  | cemail v => .text v
  | cstatus v => .int (if v then 1 else 0)
  | cnote v => .text (likePat v)
  | chire v => .date v

/-- SQLite semantics of the condition on a stored row.  `=` or `LIKE`
against a NULL column is not TRUE, so such rows are filtered out. -/
def holds : EmpCond → EmployeeRow → Bool
  | cid v, r => decide (r.id = (v : Int))
  | cname v, r => likeContains v r.name
  | csurname v, r => likeContains v r.surname
  | cposition v, r => decide (r.position = v)
  | cdepartment v, r => decide (r.department = some v)
  | cshift v, r => decide (r.shift = some v)
  | csalary v, r => decide (r.salary = some v)
  | cphone v, r => decide (r.phone_number = some v)
  | cemail v, r => decide (r.email = some v)
  | cstatus v, r => decide (r.status = some (if v then 1 else 0))
  | cnote v, r =>
    match r.note with
    | none => false
    | some t => likeContains v t
  | chire v, r => decide (r.hire_date = some v)

end EmpCond

/-- Builder step for the free-text fields: the condition is skipped when
the provided string is empty (`if !name.is_empty()`). -/
def strConds {α : Type} (o : Option String) (mk : String → α) : List α :=
  match o with
  | none => []
  | some s => if s.isEmpty then [] else [mk s]

/-- Builder step for an exact-match field. -/
def optConds {α β : Type} (o : Option α) (mk : α → β) : List β :=
  match o with
  | none => []
  | some v => [mk v]

/-- The conditions `get_employees` appends, in source (= schema) order. -/
def empFilterConds (e : Employee) : List EmpCond :=
  optConds e.id .cid ++
  strConds e.name .cname ++
  strConds e.surname .csurname ++
  optConds e.position .cposition ++
  optConds e.department .cdepartment ++
  optConds e.shift .cshift ++
  optConds e.salary .csalary ++
  optConds e.phone_number .cphone ++
  optConds e.email .cemail ++
  optConds e.status .cstatus ++
  strConds e.note .cnote ++
  optConds e.hire_date .chire

/-- The SQL text `get_employees` builds. -/
def empQueryString (e : Employee) : String :=
  "SELECT * FROM Employees WHERE 1=1" ++ String.join ((empFilterConds e).map EmpCond.frag)

/-- The positional parameter list `get_employees` binds. -/
def empQueryArgs (e : Employee) : List Value :=
  (empFilterConds e).map EmpCond.value

/-- Row-to-entity mapping done by `get_employees` (`db.rs` 210–223):
NOT NULL columns come back as `Some`, the id is narrowed `as u32`, the
status flag is reconstructed as `v == 1`. -/
def readEmpRow (r : EmployeeRow) : Employee where
  id := some ((r.id % ((2 : Int) ^ 32)).toNat)
  name := some r.name
  surname := some r.surname
  position := some r.position
  department := r.department
  shift := r.shift
  salary := r.salary
  phone_number := r.phone_number
  email := r.email
  status := r.status.map fun v => decide (v = 1)
  note := r.note
  hire_date := r.hire_date

/-- `get_employees`: run the built query over the table and map rows back. -/
def get_employees (e : Employee) (st : Store) : List Employee :=
  (st.employees.filter fun r => (empFilterConds e).all fun c => c.holds r).map readEmpRow

/-- One condition appended by `get_products` (`db.rs` lines 311–328). -/
inductive ProdCond where
  | cid (v : Nat)
  | cname (v : String)
  | ccategory (v : String)
  | cquantity (v : Nat)
  | cstatus (v : Bool)
  | cbarcode (v : Int)
  | ccost (v : Rat)
  | csell (v : Rat)
  | cdescription (v : String)
  | cbrand (v : String)
  | csupplier (v : String)
  | cempid (v : Nat)
  | cadded (v : Date)
  | cremoved (v : Date)
deriving DecidableEq, Repr

namespace ProdCond

/-- The SQL fragment `push_str`-ed onto the query for this condition. -/
def frag : ProdCond → String
  | cid _ => " AND id = ?"
  | cname _ => " AND name LIKE ?"
  | ccategory _ => " AND category = ?"
  | cquantity _ => " AND quantity = ?"
  | cstatus _ => " AND status = ?"
  | cbarcode _ => " AND bar_code = ?"
  | ccost _ => " AND cost_price = ?"
  | csell _ => " AND sell_price = ?"
  | cdescription _ => " AND description LIKE ?"
  | cbrand _ => " AND brand = ?"
  | csupplier _ => " AND supplier = ?"
  | cempid _ => " AND employee_id = ?"
  | cadded _ => " AND date_added = ?"
  | cremoved _ => " AND date_remove = ?"

/-- The column the condition constrains. -/
def col : ProdCond → String
  | cid _ => "id"
  | cname _ => "name"
  | ccategory _ => "category"
  | cquantity _ => "quantity"
  | cstatus _ => "status"
  | cbarcode _ => "bar_code"
  | ccost _ => "cost_price"
  | csell _ => "sell_price"
  | cdescription _ => "description"
  | cbrand _ => "brand"
  | csupplier _ => "supplier"
  | cempid _ => "employee_id"
  | cadded _ => "date_added"
  | cremoved _ => "date_remove"

/-- The parameter bound for the condition; `quantity` and `employee_id`
are widened `as i64` before binding. -/
def value : ProdCond → Value
  | cid v => .int v
  | cname v => .text (likePat v)
  | ccategory v => .text v
  | cquantity v => .int v
  | cstatus v => .int (if v then 1 else 0)
  | cbarcode v => .int v
  | ccost v => .real v
  | csell v => .real v
  | cdescription v => .text (likePat v)
  | cbrand v => .text v
  | csupplier v => .text v
  | cempid v => .int v
  | cadded v => .date v
  | cremoved v => .date v

/-- SQLite semantics of the condition on a stored product row. -/
def holds : ProdCond → ProductRow → Bool
  | cid v, r => decide (r.id = (v : Int))
  | cname v, r => likeContains v r.name
  | ccategory v, r => decide (r.category = v)
  | cquantity v, r => decide (r.quantity = (v : Int))
  | cstatus v, r => decide (r.status = some (if v then 1 else 0))
  | cbarcode v, r => decide (r.bar_code = v)
  | ccost v, r => decide (r.cost_price = v)
  | csell v, r => decide (r.sell_price = v)
  | cdescription v, r =>
    match r.description with
    | none => false
    | some t => likeContains v t
  | cbrand v, r => decide (r.brand = some v)
  | csupplier v, r => decide (r.supplier = some v)
  | cempid v, r => decide (r.employee_id = some (v : Int))
  | cadded v, r => decide (r.date_added = some v)
  | cremoved v, r => decide (r.date_remove = some v)

end ProdCond

/-- The conditions `get_products` appends, in source (= schema) order. -/
def prodFilterConds (p : Product) : List ProdCond :=
  optConds p.id .cid ++
  strConds p.name .cname ++
  optConds p.category .ccategory ++
  optConds p.quantity .cquantity ++
  optConds p.status .cstatus ++
  optConds p.bar_code .cbarcode ++
  optConds p.cost_price .ccost ++
  optConds p.sell_price .csell ++
  strConds p.description .cdescription ++
  optConds p.brand .cbrand ++
  optConds p.supplier .csupplier ++
  optConds p.employee_id .cempid ++
  optConds p.date_added .cadded ++
  optConds p.date_remove .cremoved

/-- The SQL text `get_products` builds. -/
def prodQueryString (p : Product) : String :=
  "SELECT * FROM Products WHERE 1=1" ++ String.join ((prodFilterConds p).map ProdCond.frag)

/-- The positional parameter list `get_products` binds. -/
def prodQueryArgs (p : Product) : List Value :=
  (prodFilterConds p).map ProdCond.value

/-- Row-to-entity mapping done by `get_products` (`db.rs` 332–347):
`id`, `quantity` and `employee_id` are narrowed `as u32`, `bar_code`
stays `i64`, the status flag is reconstructed as `v == 1`. -/
def readProdRow (r : ProductRow) : Product where
  id := some ((r.id % ((2 : Int) ^ 32)).toNat)
  name := some r.name
  category := some r.category
  quantity := some ((r.quantity % ((2 : Int) ^ 32)).toNat)
  status := r.status.map fun v => decide (v = 1)
  bar_code := some r.bar_code
  cost_price := some r.cost_price
  sell_price := some r.sell_price
  description := r.description
  brand := r.brand
  supplier := r.supplier
  employee_id := r.employee_id.map fun v => (v % ((2 : Int) ^ 32)).toNat
  date_added := r.date_added
  date_remove := r.date_remove

/-- `get_products`: run the built query over the table and map rows back. -/
def get_products (p : Product) (st : Store) : List Product :=
  (st.products.filter fun r => (prodFilterConds p).all fun c => c.holds r).map readProdRow

/-- One `column = ?` assignment pushed by `update_employee`
(`db.rs` lines 154–164); there is no empty-string skip here. -/
inductive EmpAssign where
  | uname (v : String)
  | usurname (v : String)
  | uposition (v : String)
  | udepartment (v : String)
  | ushift (v : String)
  | usalary (v : Rat)
  | uphone (v : String)
  | uemail (v : String)
  | ustatus (v : Bool)
  | unote (v : String)
  | uhire (v : Date)
deriving DecidableEq, Repr

namespace EmpAssign

/-- The SQL fragment pushed into `updates`. -/
def frag : EmpAssign → String
  | uname _ => "name = ?"
  | usurname _ => "surname = ?"
  | uposition _ => "position = ?"
  | udepartment _ => "department = ?"
  | ushift _ => "shift = ?"
  | usalary _ => "salary = ?"
  | uphone _ => "phone_number = ?"
  | uemail _ => "email = ?"
  | ustatus _ => "status = ?"
  | unote _ => "note = ?"
  | uhire _ => "hire_date = ?"

/-- The assigned column. -/
def col : EmpAssign → String
  | uname _ => "name"
  | usurname _ => "surname"
  | uposition _ => "position"
  | udepartment _ => "department"
  | ushift _ => "shift"
  | usalary _ => "salary"
  | uphone _ => "phone_number"
  | uemail _ => "email"
  | ustatus _ => "status"
  | unote _ => "note"
  | uhire _ => "hire_date"

/-- The parameter bound for the assignment. -/
def value : EmpAssign → Value
  | uname v => .text v
  | usurname v => .text v
  | uposition v => .text v
  | udepartment v => .text v
  | ushift v => .text v
  | usalary v => .real v
  | uphone v => .text v
  | uemail v => .text v
  | ustatus v => .int (if v then 1 else 0)
  | unote v => .text v
  | uhire v => .date v

end EmpAssign

/-- The assignments `update_employee` collects, in source (= schema) order. -/
def empUpdates (e : Employee) : List EmpAssign :=
  optConds e.name .uname ++
  optConds e.surname .usurname ++
  optConds e.position .uposition ++
  optConds e.department .udepartment ++
  optConds e.shift .ushift ++
  optConds e.salary .usalary ++
  optConds e.phone_number .uphone ++
  optConds e.email .uemail ++
  optConds e.status .ustatus ++
  optConds e.note .unote ++
  optConds e.hire_date .uhire

/-- The statement (SQL text and positional parameters) `update_employee`
executes, or `none` when it returns early without touching the store
(missing id, or zero assignments). -/
def empUpdateStmt (e : Employee) : Option (String × List Value) :=
  match e.id with
  | none => none
  | some i =>
    let us := empUpdates e
    if us.isEmpty then none
    else
      some ("UPDATE employees SET " ++ String.intercalate ", " (us.map EmpAssign.frag)
              ++ " WHERE id = ?",
            us.map EmpAssign.value ++ [.int i])

/-- Effect of the executed `UPDATE employees SET ... WHERE id = ?` on one
matched row: every provided column is overwritten, the rest survive. -/
def applyEmpUpdate (e : Employee) (r : EmployeeRow) : EmployeeRow where
  id := r.id
  name := e.name.getD r.name
  surname := e.surname.getD r.surname
  position := e.position.getD r.position
  department := (e.department.map some).getD r.department
  shift := (e.shift.map some).getD r.shift
  salary := (e.salary.map some).getD r.salary
  phone_number := (e.phone_number.map some).getD r.phone_number
  email := (e.email.map some).getD r.email
  status := (e.status.map fun b => some (if b then (1 : Int) else 0)).getD r.status
  note := (e.note.map some).getD r.note
  hire_date := (e.hire_date.map some).getD r.hire_date

/-- `update_employee` (`db.rs` 144–176): early `false` on a missing id or
an empty assignment list; otherwise every row matching the id predicate is
updated and the result is `rows_affected() > 0`. -/
def update_employee (e : Employee) (st : Store) : Store × Bool :=
  match e.id with
  | none => (st, false)
  | some i =>
    if (empUpdates e).isEmpty then (st, false)
    else
      ({ st with
          employees := st.employees.map fun r =>
            if r.id = (i : Int) then applyEmpUpdate e r else r },
       st.employees.any fun r => decide (r.id = (i : Int)))

/-- One `column = ?` assignment pushed by `update_product`
(`db.rs` lines 280–292). -/
inductive ProdAssign where
  | uname (v : String)
  | ucategory (v : String)
  | uquantity (v : Nat)
  | ustatus (v : Bool)
  | ubarcode (v : Int)
  | ucost (v : Rat)
  | usell (v : Rat)
  | udescription (v : String)
  | ubrand (v : String)
  | usupplier (v : String)
  | uempid (v : Nat)
  | uadded (v : Date)
  | uremoved (v : Date)
deriving DecidableEq, Repr

namespace ProdAssign

/-- The SQL fragment pushed into `updates`. -/
def frag : ProdAssign → String
  | uname _ => "name = ?"
  | ucategory _ => "category = ?"
  | uquantity _ => "quantity = ?"
  | ustatus _ => "status = ?"
  | ubarcode _ => "bar_code = ?"
  | ucost _ => "cost_price = ?"
  | usell _ => "sell_price = ?"
  | udescription _ => "description = ?"
  | ubrand _ => "brand = ?"
  | usupplier _ => "supplier = ?"
  | uempid _ => "employee_id = ?"
  | uadded _ => "date_added = ?"
  | uremoved _ => "date_remove = ?"

/-- The assigned column. -/
def col : ProdAssign → String
  | uname _ => "name"
  | ucategory _ => "category"
  | uquantity _ => "quantity"
  | ustatus _ => "status"
  | ubarcode _ => "bar_code"
  | ucost _ => "cost_price"
  | usell _ => "sell_price"
  | udescription _ => "description"
  | ubrand _ => "brand"
  | usupplier _ => "supplier"
  | uempid _ => "employee_id"
  | uadded _ => "date_added"
  | uremoved _ => "date_remove"

/-- The parameter bound for the assignment. -/
def value : ProdAssign → Value
  | uname v => .text v
  | ucategory v => .text v
  | uquantity v => .int v
  | ustatus v => .int (if v then 1 else 0)
  | ubarcode v => .int v
  | ucost v => .real v
  | usell v => .real v
  | udescription v => .text v
  | ubrand v => .text v
  | usupplier v => .text v
  | uempid v => .int v
  | uadded v => .date v
  | uremoved v => .date v

end ProdAssign

/-- The assignments `update_product` collects, in source (= schema) order. -/
def prodUpdates (p : Product) : List ProdAssign :=
  optConds p.name .uname ++
  optConds p.category .ucategory ++
  optConds p.quantity .uquantity ++
  optConds p.status .ustatus ++
  optConds p.bar_code .ubarcode ++
  optConds p.cost_price .ucost ++
  optConds p.sell_price .usell ++
  optConds p.description .udescription ++
  optConds p.brand .ubrand ++
  optConds p.supplier .usupplier ++
  optConds p.employee_id .uempid ++
  optConds p.date_added .uadded ++
  optConds p.date_remove .uremoved

/-- The statement `update_product` executes, or `none` when it returns
early without touching the store. -/
def prodUpdateStmt (p : Product) : Option (String × List Value) :=
  match p.id with
  | none => none
  | some i =>
    let us := prodUpdates p
    if us.isEmpty then none
    else
      some ("UPDATE products SET " ++ String.intercalate ", " (us.map ProdAssign.frag)
              ++ " WHERE id = ?",
            us.map ProdAssign.value ++ [.int i])

/-- Effect of the executed `UPDATE products SET ... WHERE id = ?` on one
matched row. -/
def applyProdUpdate (p : Product) (r : ProductRow) : ProductRow where
  id := r.id
  name := p.name.getD r.name
  category := p.category.getD r.category
  quantity := (p.quantity.map fun v => (v : Int)).getD r.quantity
  status := (p.status.map fun b => some (if b then (1 : Int) else 0)).getD r.status
  bar_code := p.bar_code.getD r.bar_code
  cost_price := p.cost_price.getD r.cost_price
  sell_price := p.sell_price.getD r.sell_price
  description := (p.description.map some).getD r.description
  brand := (p.brand.map some).getD r.brand
  supplier := (p.supplier.map some).getD r.supplier
  employee_id := (p.employee_id.map fun v => some (v : Int)).getD r.employee_id
  date_added := (p.date_added.map some).getD r.date_added
  date_remove := (p.date_remove.map some).getD r.date_remove

/-- `update_product` (`db.rs` 270–304). -/
def update_product (p : Product) (st : Store) : Store × Bool :=
  match p.id with
  | none => (st, false)
  | some i =>
    if (prodUpdates p).isEmpty then (st, false)
    else
      ({ st with
          products := st.products.map fun r =>
            if r.id = (i : Int) then applyProdUpdate p r else r },
       st.products.any fun r => decide (r.id = (i : Int)))

/-- `add_employee_to_store_db` (`db.rs` 93–118): the INSERT lists every
column except `id`, so any supplied id is ignored and the store assigns
the AUTOINCREMENT value.  Binding `None` into a NOT NULL column
(`name`, `surname`, `position`) makes the INSERT fail. -/
def add_employee_to_store_db (e : Employee) (st : Store) : Option Store :=
  match e.name, e.surname, e.position with
  | some n, some sn, some pos =>
    some { st with
            employees := st.employees ++
              [⟨st.nextEmpId, n, sn, pos, e.department, e.shift, e.salary,
                e.phone_number, e.email,
                e.status.map fun b => if b then (1 : Int) else 0,
                e.note, e.hire_date⟩],
            nextEmpId := st.nextEmpId + 1 }
  | _, _, _ => none

/-- `add_product_to_store_db` (`db.rs` 231–258): NOT NULL columns are
`name`, `category`, `quantity`, `bar_code`, `cost_price`, `sell_price`. -/
def add_product_to_store_db (p : Product) (st : Store) : Option Store :=
  match p.name, p.category, p.quantity, p.bar_code, p.cost_price, p.sell_price with
  | some n, some c, some q, some bc, some cp, some sp =>
    some { st with
            products := st.products ++
              [⟨st.nextProdId, n, c, (q : Int),
                p.status.map fun b => if b then (1 : Int) else 0,
                bc, cp, sp, p.description, p.brand, p.supplier,
                p.employee_id.map fun v => (v : Int),
                p.date_added, p.date_remove⟩],
            nextProdId := st.nextProdId + 1 }
  | _, _, _, _, _, _ => none

/-- The snapshot document (`db_filler.rs`: `StoreData`). -/
structure StoreData where
  employees : List Employee
  products : List Product
deriving DecidableEq, Repr

/-- `DBFiller::load_from_json`, employee loop: one insert per entry,
aborting on the first failure. -/
def importEmployees : List Employee → Store → Option Store
  | [], st => some st
  | e :: rest, st =>
    match add_employee_to_store_db e st with
    | none => none
    | some st' => importEmployees rest st'

/-- `DBFiller::load_from_json`, product loop. -/
def importProducts : List Product → Store → Option Store
  | [], st => some st
  | p :: rest, st =>
    match add_product_to_store_db p st with
    | none => none
    | some st' => importProducts rest st'

/-- `DBFiller::load_from_json`: employees first, then products. -/
def importStore (d : StoreData) (st : Store) : Option Store :=
  (importEmployees d.employees st).bind fun st1 => importProducts d.products st1

/-- `DBFiller::save_to_json`: export every row through the empty filters. -/
def exportStore (st : Store) : StoreData :=
  ⟨get_employees emptyEmp st, get_products emptyProd st⟩

/-- Forget the (reassigned) id of an employee row. -/
def stripEmpId (r : EmployeeRow) : EmployeeRow := { r with id := 0 }

/-- Forget the (reassigned) id of a product row. -/
def stripProdId (r : ProductRow) : ProductRow := { r with id := 0 }

/-- A stored employee row as the application itself writes it: the status
flag is 0, 1 or NULL. -/
def WFEmpRow (r : EmployeeRow) : Prop :=
  r.status = none ∨ r.status = some 0 ∨ r.status = some 1

/-- A stored product row as the application itself writes it: status flag
0/1/NULL, and the `u32`-typed columns within `u32` range. -/
def WFProdRow (r : ProductRow) : Prop :=
  (r.status = none ∨ r.status = some 0 ∨ r.status = some 1) ∧
  0 ≤ r.quantity ∧ r.quantity < 2 ^ 32 ∧
  0 ≤ r.employee_id.getD 0 ∧ r.employee_id.getD 0 < 2 ^ 32

/-- Every stored row is well-formed. -/
def WFStore (st : Store) : Prop :=
  (∀ r ∈ st.employees, WFEmpRow r) ∧ (∀ r ∈ st.products, WFProdRow r)

instance (r : EmployeeRow) : Decidable (WFEmpRow r) :=
  decidable_of_iff (r.status = none ∨ r.status = some 0 ∨ r.status = some 1) Iff.rfl

instance (r : ProductRow) : Decidable (WFProdRow r) :=
  decidable_of_iff
    ((r.status = none ∨ r.status = some 0 ∨ r.status = some 1) ∧
      0 ≤ r.quantity ∧ r.quantity < 2 ^ 32 ∧
      0 ≤ r.employee_id.getD 0 ∧ r.employee_id.getD 0 < 2 ^ 32) Iff.rfl

instance (st : Store) : Decidable (WFStore st) :=
  decidable_of_iff
    ((∀ r ∈ st.employees, WFEmpRow r) ∧ (∀ r ∈ st.products, WFProdRow r)) Iff.rfl

/-- Spec-side notion used by the claims: literal substring containment
(`sub` occurs contiguously in `hay`).  Helper for the prefix test. -/
def listPrefixEq : List Char → List Char → Bool
  | [], _ => true
  | _ :: _, [] => false
  | a :: as, b :: bs => a == b && listPrefixEq as bs

/-- Spec-side substring containment over char lists. -/
def containsSubAux (sub : List Char) : List Char → Bool
  | [] => listPrefixEq sub []
  | c :: t => listPrefixEq sub (c :: t) || containsSubAux sub t

/-- Spec-side: does `hay` contain `sub` as a (literal) substring? -/
def containsSub (sub hay : String) : Bool := containsSubAux sub.toList hay.toList

/-- The column order of `CREATE TABLE employees` (`db.rs` 34–47). -/
def empSchemaCols : List String :=
  ["id", "name", "surname", "position", "department", "shift", "salary",
   "phone_number", "email", "status", "note", "hire_date"]

/-- The column order of `CREATE TABLE products` (`db.rs` 56–72). -/
def prodSchemaCols : List String :=
  ["id", "name", "category", "quantity", "status", "bar_code", "cost_price",
   "sell_price", "description", "brand", "supplier", "employee_id",
   "date_added", "date_remove"]

/-- Is a free-text filter field present with a non-empty value (the only
thing about it that influences the generated SQL text)? -/
def strPresent (o : Option String) : Bool :=
  match o with
  | none => false
  | some s => !s.isEmpty

/-- The field-presence pattern of an employee filter. -/
def empPresence (e : Employee) : List Bool :=
  [e.id.isSome, e.name.isSome, e.surname.isSome, e.position.isSome,
   e.department.isSome, e.shift.isSome, e.salary.isSome, e.phone_number.isSome,
   e.email.isSome, e.status.isSome, e.note.isSome, e.hire_date.isSome]

/-- The field-presence pattern of a product filter. -/
def prodPresence (p : Product) : List Bool :=
  [p.id.isSome, p.name.isSome, p.category.isSome, p.quantity.isSome,
   p.status.isSome, p.bar_code.isSome, p.cost_price.isSome, p.sell_price.isSome,
   p.description.isSome, p.brand.isSome, p.supplier.isSome, p.employee_id.isSome,
   p.date_added.isSome, p.date_remove.isSome]

/-- A concrete stored employee row used to instantiate theorems. -/
def sampleEmpRow : EmployeeRow :=
  ⟨1, "abc", "x", "Cashier", none, none, none, none, none, some 0, none, none⟩

/-- A concrete stored product row used to instantiate theorems. -/
def sampleProdRow : ProductRow :=
  ⟨1, "abc", "food", 5, some 1, 7, 3, 4, none, none, none, some 1, none, none⟩

/-- A concrete store with one employee and one product. -/
def sampleStore : Store := ⟨[sampleEmpRow], [sampleProdRow], 2, 2⟩

theorem str_isEmpty_false {s : String} (h : s ≠ "") : s.isEmpty = false := by
  rcases hb : s.isEmpty with _ | _
  · rfl
  · exact absurd ((String.isEmpty_iff s).1 hb) h

theorem emptyStr_isEmpty : "".isEmpty = true := rfl

theorem get_employees_unfiltered (st : Store) :
    get_employees emptyEmp st = st.employees.map readEmpRow := by
  simp [get_employees, empFilterConds, emptyEmp, optConds, strConds]

theorem get_products_unfiltered (st : Store) :
    get_products emptyProd st = st.products.map readProdRow := by
  simp [get_products, prodFilterConds, emptyProd, optConds, strConds]

/-- **C1.** With every filter field unset, `get_employees` / `get_products`
return every row of the corresponding table (mapped back to entities); with
exactly one exact-match field set to `v`, they return exactly the rows whose
stored column equals `v` (for the tri-state `status` flag, `v` is stored as
1/0, so equality is against that encoding; a NULL column never equals `v`). -/
theorem c1_query_exact_match_filters :
    (∀ st : Store, get_employees emptyEmp st = st.employees.map readEmpRow) ∧
    (∀ st : Store, get_products emptyProd st = st.products.map readProdRow) ∧
    (∀ (v : Nat) (st : Store), get_employees { emptyEmp with id := some v } st =
      (st.employees.filter fun r => decide (r.id = (v : Int))).map readEmpRow) ∧
    (∀ (v : String) (st : Store), get_employees { emptyEmp with position := some v } st =
      (st.employees.filter fun r => decide (r.position = v)).map readEmpRow) ∧
    (∀ (v : String) (st : Store), get_employees { emptyEmp with department := some v } st =
      (st.employees.filter fun r => decide (r.department = some v)).map readEmpRow) ∧
    (∀ (v : String) (st : Store), get_employees { emptyEmp with shift := some v } st =
      (st.employees.filter fun r => decide (r.shift = some v)).map readEmpRow) ∧
    (∀ (v : Rat) (st : Store), get_employees { emptyEmp with salary := some v } st =
      (st.employees.filter fun r => decide (r.salary = some v)).map readEmpRow) ∧
    (∀ (v : String) (st : Store), get_employees { emptyEmp with phone_number := some v } st =
      (st.employees.filter fun r => decide (r.phone_number = some v)).map readEmpRow) ∧
    (∀ (v : String) (st : Store), get_employees { emptyEmp with email := some v } st =
      (st.employees.filter fun r => decide (r.email = some v)).map readEmpRow) ∧
    (∀ (v : Bool) (st : Store), get_employees { emptyEmp with status := some v } st =
      (st.employees.filter fun r =>
        decide (r.status = some (if v then 1 else 0))).map readEmpRow) ∧
    (∀ (v : Date) (st : Store), get_employees { emptyEmp with hire_date := some v } st =
      (st.employees.filter fun r => decide (r.hire_date = some v)).map readEmpRow) ∧
    (∀ (v : Nat) (st : Store), get_products { emptyProd with id := some v } st =
      (st.products.filter fun r => decide (r.id = (v : Int))).map readProdRow) ∧
    (∀ (v : String) (st : Store), get_products { emptyProd with category := some v } st =
      (st.products.filter fun r => decide (r.category = v)).map readProdRow) ∧
    (∀ (v : Nat) (st : Store), get_products { emptyProd with quantity := some v } st =
      (st.products.filter fun r => decide (r.quantity = (v : Int))).map readProdRow) ∧
    (∀ (v : Bool) (st : Store), get_products { emptyProd with status := some v } st =
      (st.products.filter fun r =>
        decide (r.status = some (if v then 1 else 0))).map readProdRow) ∧
    (∀ (v : Int) (st : Store), get_products { emptyProd with bar_code := some v } st =
      (st.products.filter fun r => decide (r.bar_code = v)).map readProdRow) ∧
    (∀ (v : Rat) (st : Store), get_products { emptyProd with cost_price := some v } st =
      (st.products.filter fun r => decide (r.cost_price = v)).map readProdRow) ∧
    (∀ (v : Rat) (st : Store), get_products { emptyProd with sell_price := some v } st =
      (st.products.filter fun r => decide (r.sell_price = v)).map readProdRow) ∧
    (∀ (v : String) (st : Store), get_products { emptyProd with brand := some v } st =
      (st.products.filter fun r => decide (r.brand = some v)).map readProdRow) ∧
    (∀ (v : String) (st : Store), get_products { emptyProd with supplier := some v } st =
      (st.products.filter fun r => decide (r.supplier = some v)).map readProdRow) ∧
    (∀ (v : Nat) (st : Store), get_products { emptyProd with employee_id := some v } st =
      (st.products.filter fun r => decide (r.employee_id = some (v : Int))).map readProdRow) ∧
    (∀ (v : Date) (st : Store), get_products { emptyProd with date_added := some v } st =
      (st.products.filter fun r => decide (r.date_added = some v)).map readProdRow) ∧
    (∀ (v : Date) (st : Store), get_products { emptyProd with date_remove := some v } st =
      (st.products.filter fun r => decide (r.date_remove = some v)).map readProdRow) := by
  refine ⟨?_, ?_, ?_, ?_, ?_, ?_, ?_, ?_, ?_, ?_, ?_, ?_, ?_, ?_, ?_, ?_, ?_, ?_,
    ?_, ?_, ?_, ?_, ?_⟩ <;>
    (intros;
     simp [get_employees, get_products, empFilterConds, prodFilterConds, emptyEmp,
       emptyProd, optConds, strConds, EmpCond.holds, ProdCond.holds])

/-- **C2**, counterexample to the claim as stated.  The filter value is put
into a `LIKE '%…%'` pattern, in which `%` is a wildcard: searching for the
name `"%"` on a store whose only employee is named `"abc"` returns that row,
although `"abc"` does not contain `"%"` as a substring — so the result is
not "exactly the rows whose stored column contains s as a substring". -/
theorem c2_counterexample :
    get_employees { emptyEmp with name := some "%" } sampleStore ≠
      (sampleStore.employees.filter fun r => containsSub "%" r.name).map readEmpRow := by
  decide

/-- **C2**, amended.  Filtering a substring field by the empty string adds
no condition (same result as leaving the field unset).  Filtering by a
non-empty `s` (with only that field set) returns exactly the rows whose
stored column matches the SQLite `LIKE` pattern `%s%` — substring matching
up to ASCII case, with `%` and `_` inside `s` acting as wildcards; a NULL
column (nullable `note` / `description`) never matches. -/
theorem c2_substring_like_filters (s : String) (st : Store) (h : s ≠ "") :
    (get_employees { emptyEmp with name := some s } st =
      (st.employees.filter fun r => likeContains s r.name).map readEmpRow) ∧
    (get_employees { emptyEmp with surname := some s } st =
      (st.employees.filter fun r => likeContains s r.surname).map readEmpRow) ∧
    (get_employees { emptyEmp with note := some s } st =
      (st.employees.filter fun r => (r.note.map (likeContains s)).getD false).map readEmpRow) ∧
    (get_products { emptyProd with name := some s } st =
      (st.products.filter fun r => likeContains s r.name).map readProdRow) ∧
    (get_products { emptyProd with description := some s } st =
      (st.products.filter fun r =>
        (r.description.map (likeContains s)).getD false).map readProdRow) ∧
    (∀ e : Employee,
      get_employees { e with name := some "" } st = get_employees { e with name := none } st) ∧
    (∀ e : Employee,
      get_employees { e with surname := some "" } st =
        get_employees { e with surname := none } st) ∧
    (∀ e : Employee,
      get_employees { e with note := some "" } st = get_employees { e with note := none } st) ∧
    (∀ p : Product,
      get_products { p with name := some "" } st = get_products { p with name := none } st) ∧
    (∀ p : Product,
      get_products { p with description := some "" } st =
        get_products { p with description := none } st) := by
  refine ⟨?_, ?_, ?_, ?_, ?_, ?_, ?_, ?_, ?_, ?_⟩
  · simp [get_employees, empFilterConds, emptyEmp, optConds, strConds, EmpCond.holds,
      str_isEmpty_false h]
  · simp [get_employees, empFilterConds, emptyEmp, optConds, strConds, EmpCond.holds,
      str_isEmpty_false h]
  · simp only [get_employees, empFilterConds, emptyEmp, optConds, strConds,
      str_isEmpty_false h, Bool.false_eq_true, if_false, List.nil_append, List.append_nil,
      List.all_cons, List.all_nil, Bool.and_true]
    congr 1
    apply List.filter_congr
    intro r _
    cases hn : r.note <;> simp [EmpCond.holds, hn]
  · simp [get_products, prodFilterConds, emptyProd, optConds, strConds, ProdCond.holds,
      str_isEmpty_false h]
  · simp only [get_products, prodFilterConds, emptyProd, optConds, strConds,
      str_isEmpty_false h, Bool.false_eq_true, if_false, List.nil_append, List.append_nil,
      List.all_cons, List.all_nil, Bool.and_true]
    congr 1
    apply List.filter_congr
    intro r _
    cases hd : r.description <;> simp [ProdCond.holds, hd]
  · intro e; simp [get_employees, empFilterConds, strConds, emptyStr_isEmpty]
  · intro e; simp [get_employees, empFilterConds, strConds, emptyStr_isEmpty]
  · intro e; simp [get_employees, empFilterConds, strConds, emptyStr_isEmpty]
  · intro p; simp [get_products, prodFilterConds, strConds, emptyStr_isEmpty]
  · intro p; simp [get_products, prodFilterConds, strConds, emptyStr_isEmpty]

/-- **C2**, witness: the amended theorem applied at `s = "b"` on the sample
store. -/
theorem c2_substring_like_filters_witness :
    get_employees { emptyEmp with name := some "b" } sampleStore =
      (sampleStore.employees.filter fun r => likeContains "b" r.name).map readEmpRow :=
  (c2_substring_like_filters "b" sampleStore (by decide)).1

/-- **C3.** A partial update with an id and at least one other field set
changes, on every row matched by the id predicate, exactly the columns of
the set fields (optional columns are overwritten with `SOME v`, the status
flag with its 1/0 encoding); every unset field and the id column keep their
stored value, unmatched rows are returned unchanged, and the other entity's
table is untouched. -/
theorem c3_partial_update_frame (e : Employee) (p : Product) (st : Store) (i j : Nat)
    (hei : e.id = some i) (hne : empUpdates e ≠ [])
    (hpi : p.id = some j) (hnp : prodUpdates p ≠ []) :
    (update_employee e st).1.products = st.products ∧
    (update_employee e st).1.nextEmpId = st.nextEmpId ∧
    List.Forall₂ (fun r r' : EmployeeRow =>
        (r.id ≠ (i : Int) → r' = r) ∧
        (r.id = (i : Int) →
          r'.id = r.id ∧
          (e.name = none → r'.name = r.name) ∧
          (∀ v, e.name = some v → r'.name = v) ∧
          (e.surname = none → r'.surname = r.surname) ∧
          (∀ v, e.surname = some v → r'.surname = v) ∧
          (e.position = none → r'.position = r.position) ∧
          (∀ v, e.position = some v → r'.position = v) ∧
          (e.department = none → r'.department = r.department) ∧
          (∀ v, e.department = some v → r'.department = some v) ∧
          (e.shift = none → r'.shift = r.shift) ∧
          (∀ v, e.shift = some v → r'.shift = some v) ∧
          (e.salary = none → r'.salary = r.salary) ∧
          (∀ v, e.salary = some v → r'.salary = some v) ∧
          (e.phone_number = none → r'.phone_number = r.phone_number) ∧
          (∀ v, e.phone_number = some v → r'.phone_number = some v) ∧
          (e.email = none → r'.email = r.email) ∧
          (∀ v, e.email = some v → r'.email = some v) ∧
          (e.status = none → r'.status = r.status) ∧
          (∀ v, e.status = some v → r'.status = some (if v then 1 else 0)) ∧
          (e.note = none → r'.note = r.note) ∧
          (∀ v, e.note = some v → r'.note = some v) ∧
          (e.hire_date = none → r'.hire_date = r.hire_date) ∧
          (∀ v, e.hire_date = some v → r'.hire_date = some v)))
      st.employees (update_employee e st).1.employees ∧
    (update_product p st).1.employees = st.employees ∧
    (update_product p st).1.nextProdId = st.nextProdId ∧
    List.Forall₂ (fun r r' : ProductRow =>
        (r.id ≠ (j : Int) → r' = r) ∧
        (r.id = (j : Int) →
          r'.id = r.id ∧
          (p.name = none → r'.name = r.name) ∧
          (∀ v, p.name = some v → r'.name = v) ∧
          (p.category = none → r'.category = r.category) ∧
          (∀ v, p.category = some v → r'.category = v) ∧
          (p.quantity = none → r'.quantity = r.quantity) ∧
          (∀ v, p.quantity = some v → r'.quantity = (v : Int)) ∧
          (p.status = none → r'.status = r.status) ∧
          (∀ v, p.status = some v → r'.status = some (if v then 1 else 0)) ∧
          (p.bar_code = none → r'.bar_code = r.bar_code) ∧
          (∀ v, p.bar_code = some v → r'.bar_code = v) ∧
          (p.cost_price = none → r'.cost_price = r.cost_price) ∧
          (∀ v, p.cost_price = some v → r'.cost_price = v) ∧
          (p.sell_price = none → r'.sell_price = r.sell_price) ∧
          (∀ v, p.sell_price = some v → r'.sell_price = v) ∧
          (p.description = none → r'.description = r.description) ∧
          (∀ v, p.description = some v → r'.description = some v) ∧
          (p.brand = none → r'.brand = r.brand) ∧
          (∀ v, p.brand = some v → r'.brand = some v) ∧
          (p.supplier = none → r'.supplier = r.supplier) ∧
          (∀ v, p.supplier = some v → r'.supplier = some v) ∧
          (p.employee_id = none → r'.employee_id = r.employee_id) ∧
          (∀ v, p.employee_id = some v → r'.employee_id = some (v : Int)) ∧
          (p.date_added = none → r'.date_added = r.date_added) ∧
          (∀ v, p.date_added = some v → r'.date_added = some v) ∧
          (p.date_remove = none → r'.date_remove = r.date_remove) ∧
          (∀ v, p.date_remove = some v → r'.date_remove = some v)))
      st.products (update_product p st).1.products := by
  have hni : (empUpdates e).isEmpty = false := by simp [hne]
  have hnj : (prodUpdates p).isEmpty = false := by simp [hnp]
  refine ⟨by simp [update_employee, hei, hni], by simp [update_employee, hei, hni], ?_,
    by simp [update_product, hpi, hnj], by simp [update_product, hpi, hnj], ?_⟩
  · simp only [update_employee, hei, hni, Bool.false_eq_true, if_false]
    rw [List.forall₂_map_right_iff, List.forall₂_same]
    intro r _hr
    by_cases hid : r.id = (i : Int)
    · simp only [hid, if_pos rfl]
      refine ⟨fun hc => absurd rfl hc, fun _ => ?_⟩
      refine ⟨?_, ?_, ?_, ?_, ?_, ?_, ?_, ?_, ?_, ?_, ?_, ?_, ?_, ?_, ?_, ?_, ?_, ?_,
        ?_, ?_, ?_, ?_, ?_⟩ <;> (intros; simp_all [applyEmpUpdate])
    · simp [hid]
  · simp only [update_product, hpi, hnj, Bool.false_eq_true, if_false]
    rw [List.forall₂_map_right_iff, List.forall₂_same]
    intro r _hr
    by_cases hid : r.id = (j : Int)
    · simp only [hid, if_pos rfl]
      refine ⟨fun hc => absurd rfl hc, fun _ => ?_⟩
      refine ⟨?_, ?_, ?_, ?_, ?_, ?_, ?_, ?_, ?_, ?_, ?_, ?_, ?_, ?_, ?_, ?_, ?_, ?_,
        ?_, ?_, ?_, ?_, ?_, ?_, ?_, ?_, ?_⟩ <;> (intros; simp_all [applyProdUpdate])
    · simp [hid]

/-- **C3**, witness: updating employee 1's name and product 1's brand in the
sample store leaves the other table and the unset columns unchanged. -/
theorem c3_partial_update_frame_witness :
    (update_employee { emptyEmp with id := some 1, name := some "Z" } sampleStore).1.products =
      sampleStore.products ∧
    (update_product { emptyProd with id := some 1, brand := some "B" } sampleStore).1.employees =
      sampleStore.employees :=
  ⟨(c3_partial_update_frame { emptyEmp with id := some 1, name := some "Z" }
      { emptyProd with id := some 1, brand := some "B" } sampleStore 1 1
      rfl (by decide) rfl (by decide)).1,
   (c3_partial_update_frame { emptyEmp with id := some 1, name := some "Z" }
      { emptyProd with id := some 1, brand := some "B" } sampleStore 1 1
      rfl (by decide) rfl (by decide)).2.2.2.1⟩

/-- **C4**, counterexample to the claim as stated.  On the sample store an
update payload carrying only `id = 1` has its id present and a row with
that id exists, yet `update_employee` returns `false`: the builder's
zero-assignments early return fires before any statement is executed. -/
theorem c4_counterexample :
    (update_employee { emptyEmp with id := some 1 } sampleStore).2 = false ∧
    ({ emptyEmp with id := some 1 } : Employee).id = some 1 ∧
    (sampleStore.employees.any fun r => decide (r.id = (1 : Int))) = true := by
  decide

/-- **C4**, amended.  `update` returns `true` exactly when the input id is
present, at least one non-id field is set, and the update-by-id predicate
matches a row; it returns `false` when the id is missing, when no non-id
field is set (early no-op return), or when the predicate matched zero
rows. -/
theorem c4_update_result (e : Employee) (p : Product) (st : Store) :
    ((update_employee e st).2 = true ↔
      ∃ i, e.id = some i ∧ empUpdates e ≠ [] ∧
        (st.employees.any fun r => decide (r.id = (i : Int))) = true) ∧
    ((update_product p st).2 = true ↔
      ∃ j, p.id = some j ∧ prodUpdates p ≠ [] ∧
        (st.products.any fun r => decide (r.id = (j : Int))) = true) := by
  constructor
  · rcases he : e.id with _ | i
    · simp [update_employee, he]
    · by_cases hu : (empUpdates e).isEmpty
      · rw [List.isEmpty_iff] at hu
        simp [update_employee, he, hu]
      · have hu' : empUpdates e ≠ [] := by
          intro hc; exact hu (by simp [hc])
        simp [update_employee, he, List.isEmpty_iff.not.2 hu', hu']
  · rcases hp : p.id with _ | j
    · simp [update_product, hp]
    · by_cases hu : (prodUpdates p).isEmpty
      · rw [List.isEmpty_iff] at hu
        simp [update_product, hp, hu]
      · have hu' : prodUpdates p ≠ [] := by
          intro hc; exact hu (by simp [hc])
        simp [update_product, hp, List.isEmpty_iff.not.2 hu', hu']

theorem optConds_eq_nil {α β : Type} (o : Option α) (mk : α → β) :
    optConds o mk = [] ↔ o = none := by
  cases o <;> simp [optConds]

/-- The assignment list of `update_employee` is empty exactly when every
non-id field of the payload is unset. -/
theorem empUpdates_eq_nil_iff (e : Employee) :
    empUpdates e = [] ↔
      e.name = none ∧ e.surname = none ∧ e.position = none ∧ e.department = none ∧
      e.shift = none ∧ e.salary = none ∧ e.phone_number = none ∧ e.email = none ∧
      e.status = none ∧ e.note = none ∧ e.hire_date = none := by
  simp [empUpdates, List.append_eq_nil, optConds_eq_nil]

/-- The assignment list of `update_product` is empty exactly when every
non-id field of the payload is unset. -/
theorem prodUpdates_eq_nil_iff (p : Product) :
    prodUpdates p = [] ↔
      p.name = none ∧ p.category = none ∧ p.quantity = none ∧ p.status = none ∧
      p.bar_code = none ∧ p.cost_price = none ∧ p.sell_price = none ∧
      p.description = none ∧ p.brand = none ∧ p.supplier = none ∧
      p.employee_id = none ∧ p.date_added = none ∧ p.date_remove = none := by
  simp [prodUpdates, List.append_eq_nil, optConds_eq_nil]

/-- **C5.** An update with no id returns `false` and leaves the store
untouched without executing a statement; an update whose non-id fields are
all unset (`empUpdates`/`prodUpdates` empty, equivalently every non-id
field `none`) likewise returns `false`, executes no statement
(`…UpdateStmt` is `none`) and mutates nothing. -/
theorem c5_update_noop (e : Employee) (p : Product) (st : Store) :
    (e.id = none → update_employee e st = (st, false) ∧ empUpdateStmt e = none) ∧
    (empUpdates e = [] → update_employee e st = (st, false) ∧ empUpdateStmt e = none) ∧
    (p.id = none → update_product p st = (st, false) ∧ prodUpdateStmt p = none) ∧
    (prodUpdates p = [] → update_product p st = (st, false) ∧ prodUpdateStmt p = none) ∧
    (empUpdates e = [] ↔
      e.name = none ∧ e.surname = none ∧ e.position = none ∧ e.department = none ∧
      e.shift = none ∧ e.salary = none ∧ e.phone_number = none ∧ e.email = none ∧
      e.status = none ∧ e.note = none ∧ e.hire_date = none) ∧
    (prodUpdates p = [] ↔
      p.name = none ∧ p.category = none ∧ p.quantity = none ∧ p.status = none ∧
      p.bar_code = none ∧ p.cost_price = none ∧ p.sell_price = none ∧
      p.description = none ∧ p.brand = none ∧ p.supplier = none ∧
      p.employee_id = none ∧ p.date_added = none ∧ p.date_remove = none) := by
  refine ⟨?_, ?_, ?_, ?_, empUpdates_eq_nil_iff e, prodUpdates_eq_nil_iff p⟩
  · intro h; simp [update_employee, empUpdateStmt, h]
  · intro h
    rcases he : e.id with _ | i <;> simp [update_employee, empUpdateStmt, he, h]
  · intro h; simp [update_product, prodUpdateStmt, h]
  · intro h
    rcases hp : p.id with _ | j <;> simp [update_product, prodUpdateStmt, hp, h]

/-- **C5**, witness: the no-id payload and the id-only payload are both
no-ops on the sample store. -/
theorem c5_update_noop_witness :
    (update_employee emptyEmp sampleStore = (sampleStore, false) ∧
      empUpdateStmt emptyEmp = none) ∧
    (update_employee { emptyEmp with id := some 1 } sampleStore = (sampleStore, false) ∧
      empUpdateStmt { emptyEmp with id := some 1 } = none) ∧
    (update_product { emptyProd with id := some 1 } sampleStore = (sampleStore, false) ∧
      prodUpdateStmt { emptyProd with id := some 1 } = none) :=
  ⟨(c5_update_noop emptyEmp emptyProd sampleStore).1 rfl,
   (c5_update_noop { emptyEmp with id := some 1 } emptyProd sampleStore).2.1 (by decide),
   (c5_update_noop emptyEmp { emptyProd with id := some 1 } sampleStore).2.2.2.1 (by decide)⟩

theorem optConds_map_sub {α β : Type} (o : Option α) (mk : α → β) (g : β → String)
    (c : String) (h : ∀ v, g (mk v) = c) : ((optConds o mk).map g).Sublist [c] := by
  cases o
  · exact List.nil_sublist _
  · simp [optConds, h]

theorem strConds_map_sub (o : Option String) (mk : String → EmpCond) (g : EmpCond → String)
    (c : String) (h : ∀ v, g (mk v) = c) : ((strConds o mk).map g).Sublist [c] := by
  rcases o with _ | s
  · exact List.nil_sublist _
  · by_cases hs : s.isEmpty
    · simp [strConds, hs]
    · simp [strConds, hs, h]

theorem strCondsP_map_sub (o : Option String) (mk : String → ProdCond) (g : ProdCond → String)
    (c : String) (h : ∀ v, g (mk v) = c) : ((strConds o mk).map g).Sublist [c] := by
  rcases o with _ | s
  · exact List.nil_sublist _
  · by_cases hs : s.isEmpty
    · simp [strConds, hs]
    · simp [strConds, hs, h]

theorem empFilterConds_cols_sub (e : Employee) :
    ((empFilterConds e).map EmpCond.col).Sublist empSchemaCols := by
  unfold empFilterConds empSchemaCols
  simp only [List.map_append]
  exact
    (List.Sublist.append (List.Sublist.append (List.Sublist.append (List.Sublist.append (List.Sublist.append (List.Sublist.append (List.Sublist.append (List.Sublist.append (List.Sublist.append (List.Sublist.append (List.Sublist.append (optConds_map_sub e.id EmpCond.cid EmpCond.col "id" (fun v => rfl))
      (strConds_map_sub e.name EmpCond.cname EmpCond.col "name" (fun v => rfl)))
      (strConds_map_sub e.surname EmpCond.csurname EmpCond.col "surname" (fun v => rfl)))
      (optConds_map_sub e.position EmpCond.cposition EmpCond.col "position" (fun v => rfl)))
      (optConds_map_sub e.department EmpCond.cdepartment EmpCond.col "department" (fun v => rfl)))
      (optConds_map_sub e.shift EmpCond.cshift EmpCond.col "shift" (fun v => rfl)))
      (optConds_map_sub e.salary EmpCond.csalary EmpCond.col "salary" (fun v => rfl)))
      (optConds_map_sub e.phone_number EmpCond.cphone EmpCond.col "phone_number" (fun v => rfl)))
      (optConds_map_sub e.email EmpCond.cemail EmpCond.col "email" (fun v => rfl)))
      (optConds_map_sub e.status EmpCond.cstatus EmpCond.col "status" (fun v => rfl)))
      (strConds_map_sub e.note EmpCond.cnote EmpCond.col "note" (fun v => rfl)))
      (optConds_map_sub e.hire_date EmpCond.chire EmpCond.col "hire_date" (fun v => rfl)))
theorem prodFilterConds_cols_sub (p : Product) :
    ((prodFilterConds p).map ProdCond.col).Sublist prodSchemaCols := by
  unfold prodFilterConds prodSchemaCols
  simp only [List.map_append]
  exact
    (List.Sublist.append (List.Sublist.append (List.Sublist.append (List.Sublist.append (List.Sublist.append (List.Sublist.append (List.Sublist.append (List.Sublist.append (List.Sublist.append (List.Sublist.append (List.Sublist.append (List.Sublist.append (List.Sublist.append (optConds_map_sub p.id ProdCond.cid ProdCond.col "id" (fun v => rfl))
      (strCondsP_map_sub p.name ProdCond.cname ProdCond.col "name" (fun v => rfl)))
      (optConds_map_sub p.category ProdCond.ccategory ProdCond.col "category" (fun v => rfl)))
      (optConds_map_sub p.quantity ProdCond.cquantity ProdCond.col "quantity" (fun v => rfl)))
      (optConds_map_sub p.status ProdCond.cstatus ProdCond.col "status" (fun v => rfl)))
      (optConds_map_sub p.bar_code ProdCond.cbarcode ProdCond.col "bar_code" (fun v => rfl)))
      (optConds_map_sub p.cost_price ProdCond.ccost ProdCond.col "cost_price" (fun v => rfl)))
      (optConds_map_sub p.sell_price ProdCond.csell ProdCond.col "sell_price" (fun v => rfl)))
      (strCondsP_map_sub p.description ProdCond.cdescription ProdCond.col "description" (fun v => rfl)))
      (optConds_map_sub p.brand ProdCond.cbrand ProdCond.col "brand" (fun v => rfl)))
      (optConds_map_sub p.supplier ProdCond.csupplier ProdCond.col "supplier" (fun v => rfl)))
      (optConds_map_sub p.employee_id ProdCond.cempid ProdCond.col "employee_id" (fun v => rfl)))
      (optConds_map_sub p.date_added ProdCond.cadded ProdCond.col "date_added" (fun v => rfl)))
      (optConds_map_sub p.date_remove ProdCond.cremoved ProdCond.col "date_remove" (fun v => rfl)))
theorem empUpdates_cols_sub (e : Employee) :
    ((empUpdates e).map EmpAssign.col).Sublist empSchemaCols := by
  unfold empUpdates empSchemaCols
  simp only [List.map_append]
  refine List.Sublist.cons _ ?_
  exact
    (List.Sublist.append (List.Sublist.append (List.Sublist.append (List.Sublist.append (List.Sublist.append (List.Sublist.append (List.Sublist.append (List.Sublist.append (List.Sublist.append (List.Sublist.append (optConds_map_sub e.name EmpAssign.uname EmpAssign.col "name" (fun v => rfl))
      (optConds_map_sub e.surname EmpAssign.usurname EmpAssign.col "surname" (fun v => rfl)))
      (optConds_map_sub e.position EmpAssign.uposition EmpAssign.col "position" (fun v => rfl)))
      (optConds_map_sub e.department EmpAssign.udepartment EmpAssign.col "department" (fun v => rfl)))
      (optConds_map_sub e.shift EmpAssign.ushift EmpAssign.col "shift" (fun v => rfl)))
      (optConds_map_sub e.salary EmpAssign.usalary EmpAssign.col "salary" (fun v => rfl)))
      (optConds_map_sub e.phone_number EmpAssign.uphone EmpAssign.col "phone_number" (fun v => rfl)))
      (optConds_map_sub e.email EmpAssign.uemail EmpAssign.col "email" (fun v => rfl)))
      (optConds_map_sub e.status EmpAssign.ustatus EmpAssign.col "status" (fun v => rfl)))
      (optConds_map_sub e.note EmpAssign.unote EmpAssign.col "note" (fun v => rfl)))
      (optConds_map_sub e.hire_date EmpAssign.uhire EmpAssign.col "hire_date" (fun v => rfl)))
theorem prodUpdates_cols_sub (p : Product) :
    ((prodUpdates p).map ProdAssign.col).Sublist prodSchemaCols := by
  unfold prodUpdates prodSchemaCols
  simp only [List.map_append]
  refine List.Sublist.cons _ ?_
  exact
    (List.Sublist.append (List.Sublist.append (List.Sublist.append (List.Sublist.append (List.Sublist.append (List.Sublist.append (List.Sublist.append (List.Sublist.append (List.Sublist.append (List.Sublist.append (List.Sublist.append (List.Sublist.append (optConds_map_sub p.name ProdAssign.uname ProdAssign.col "name" (fun v => rfl))
      (optConds_map_sub p.category ProdAssign.ucategory ProdAssign.col "category" (fun v => rfl)))
      (optConds_map_sub p.quantity ProdAssign.uquantity ProdAssign.col "quantity" (fun v => rfl)))
      (optConds_map_sub p.status ProdAssign.ustatus ProdAssign.col "status" (fun v => rfl)))
      (optConds_map_sub p.bar_code ProdAssign.ubarcode ProdAssign.col "bar_code" (fun v => rfl)))
      (optConds_map_sub p.cost_price ProdAssign.ucost ProdAssign.col "cost_price" (fun v => rfl)))
      (optConds_map_sub p.sell_price ProdAssign.usell ProdAssign.col "sell_price" (fun v => rfl)))
      (optConds_map_sub p.description ProdAssign.udescription ProdAssign.col "description" (fun v => rfl)))
      (optConds_map_sub p.brand ProdAssign.ubrand ProdAssign.col "brand" (fun v => rfl)))
      (optConds_map_sub p.supplier ProdAssign.usupplier ProdAssign.col "supplier" (fun v => rfl)))
      (optConds_map_sub p.employee_id ProdAssign.uempid ProdAssign.col "employee_id" (fun v => rfl)))
      (optConds_map_sub p.date_added ProdAssign.uadded ProdAssign.col "date_added" (fun v => rfl)))
      (optConds_map_sub p.date_remove ProdAssign.uremoved ProdAssign.col "date_remove" (fun v => rfl)))

/-- **C6.** The conditions a filter generates, and the assignments an
update generates, are listed in the fixed schema-declaration column order
(their column projection is a sublist of the `CREATE TABLE` column list);
the bound parameters follow the conditions/assignments positionally, and
for updates the identifying id parameter is appended last, after every
assignment parameter. -/
theorem c6_schema_order (e : Employee) (p : Product) (i j : Nat)
    (he : e.id = some i) (hp : p.id = some j)
    (hne : empUpdates e ≠ []) (hnp : prodUpdates p ≠ []) :
    ((empFilterConds e).map EmpCond.col).Sublist empSchemaCols ∧
    ((prodFilterConds p).map ProdCond.col).Sublist prodSchemaCols ∧
    empQueryArgs e = (empFilterConds e).map EmpCond.value ∧
    prodQueryArgs p = (prodFilterConds p).map ProdCond.value ∧
    ((empUpdates e).map EmpAssign.col).Sublist empSchemaCols ∧
    ((prodUpdates p).map ProdAssign.col).Sublist prodSchemaCols ∧
    (∃ q, empUpdateStmt e = some (q, (empUpdates e).map EmpAssign.value ++ [Value.int i])) ∧
    (∃ q, prodUpdateStmt p = some (q, (prodUpdates p).map ProdAssign.value ++ [Value.int j])) := by
  refine ⟨empFilterConds_cols_sub e, prodFilterConds_cols_sub p, rfl, rfl,
    empUpdates_cols_sub e, prodUpdates_cols_sub p, ?_, ?_⟩
  · refine ⟨"UPDATE employees SET " ++
      String.intercalate ", " ((empUpdates e).map EmpAssign.frag) ++ " WHERE id = ?", ?_⟩
    simp [empUpdateStmt, he, List.isEmpty_iff.not.2 hne]
  · refine ⟨"UPDATE products SET " ++
      String.intercalate ", " ((prodUpdates p).map ProdAssign.frag) ++ " WHERE id = ?", ?_⟩
    simp [prodUpdateStmt, hp, List.isEmpty_iff.not.2 hnp]

/-- **C6**, witness: a concrete two-field filter and one-field update. -/
theorem c6_schema_order_witness :
    ((empFilterConds { emptyEmp with id := some 4, surname := some "x", note := some "n" }).map
        EmpCond.col).Sublist empSchemaCols ∧
    (∃ q, empUpdateStmt { emptyEmp with id := some 4, surname := some "x", note := some "n" } =
      some (q,
        (empUpdates { emptyEmp with id := some 4, surname := some "x", note := some "n" }).map
          EmpAssign.value ++ [Value.int 4])) :=
  ⟨(c6_schema_order { emptyEmp with id := some 4, surname := some "x", note := some "n" }
      { emptyProd with id := some 1, brand := some "B" } 4 1 rfl rfl
      (by decide) (by decide)).1,
   (c6_schema_order { emptyEmp with id := some 4, surname := some "x", note := some "n" }
      { emptyProd with id := some 1, brand := some "B" } 4 1 rfl rfl
      (by decide) (by decide)).2.2.2.2.2.2.1⟩

theorem mem_optConds {α β : Type} {o : Option α} {mk : α → β} {c : β}
    (h : c ∈ optConds o mk) : ∃ v, c = mk v := by
  cases o
  · simp [optConds] at h
  · simp [optConds] at h
    exact ⟨_, h⟩

theorem mem_strConds {β : Type} {o : Option String} {mk : String → β} {c : β}
    (h : c ∈ strConds o mk) : ∃ v, c = mk v := by
  rcases o with _ | s
  · simp [strConds] at h
  · by_cases hs : s.isEmpty
    · simp [strConds, hs] at h
    · simp [strConds, hs] at h
      exact ⟨_, h⟩

/-- **C7.** Tri-state status handling: a filter whose `status` field is
unset generates no condition on the `status` column (unset is never
conflated with `false`); a filter with `status = false` generates an
equality condition selecting exactly the rows whose stored flag is 0; and
on read the stored flag is reconstructed as `v == 1`, so stored 0 maps to
`some false`, stored 1 to `some true`, and NULL to `none`. -/
theorem c7_tristate_status (e : Employee) (p : Product) (st : Store)
    (r : EmployeeRow) (q : ProductRow) :
    (∀ c ∈ empFilterConds { e with status := none }, c.col ≠ "status") ∧
    (∀ c ∈ prodFilterConds { p with status := none }, c.col ≠ "status") ∧
    (get_employees { emptyEmp with status := some false } st =
      (st.employees.filter fun r => decide (r.status = some 0)).map readEmpRow) ∧
    (get_products { emptyProd with status := some false } st =
      (st.products.filter fun r => decide (r.status = some 0)).map readProdRow) ∧
    (r.status = none ∨ r.status = some 0 ∨ r.status = some 1 →
      ((readEmpRow r).status = some false ↔ r.status = some 0)) ∧
    (q.status = none ∨ q.status = some 0 ∨ q.status = some 1 →
      ((readProdRow q).status = some false ↔ q.status = some 0)) ∧
    (r.status = some 0 → (readEmpRow r).status = some false) ∧
    (r.status = some 1 → (readEmpRow r).status = some true) ∧
    (r.status = none → (readEmpRow r).status = none) ∧
    (q.status = some 0 → (readProdRow q).status = some false) ∧
    (q.status = some 1 → (readProdRow q).status = some true) ∧
    (q.status = none → (readProdRow q).status = none) := by
  refine ⟨?_, ?_, ?_, ?_, ?_, ?_, ?_, ?_, ?_, ?_, ?_, ?_⟩
  · intro c hc
    simp only [empFilterConds, List.mem_append] at hc
    rcases hc with ((((((((((h | h) | h) | h) | h) | h) | h) | h) | h) | h) | h) | h
    all_goals
      first
      | (obtain ⟨v, rfl⟩ := mem_optConds h; simp_all [EmpCond.col, optConds])
      | (obtain ⟨v, rfl⟩ := mem_strConds h; simp_all [EmpCond.col, strConds])
  · intro c hc
    simp only [prodFilterConds, List.mem_append] at hc
    rcases hc with
      ((((((((((((h | h) | h) | h) | h) | h) | h) | h) | h) | h) | h) | h) | h) | h
    all_goals
      first
      | (obtain ⟨v, rfl⟩ := mem_optConds h; simp_all [ProdCond.col, optConds])
      | (obtain ⟨v, rfl⟩ := mem_strConds h; simp_all [ProdCond.col, strConds])
  · simp [get_employees, empFilterConds, emptyEmp, optConds, strConds, EmpCond.holds]
  · simp [get_products, prodFilterConds, emptyProd, optConds, strConds, ProdCond.holds]
  · rintro (h | h | h) <;> simp [readEmpRow, h]
  · rintro (h | h | h) <;> simp [readProdRow, h]
  · intro h; simp [readEmpRow, h]
  · intro h; simp [readEmpRow, h]
  · intro h; simp [readEmpRow, h]
  · intro h; simp [readProdRow, h]
  · intro h; simp [readProdRow, h]
  · intro h; simp [readProdRow, h]

/-- **C7**, witness: a false-status filter on the sample store (whose
employee row stores status 0 and product row stores status 1), and the
read-back of the sample rows. -/
theorem c7_tristate_status_witness :
    ((readEmpRow sampleEmpRow).status = some false ↔ sampleEmpRow.status = some 0) ∧
    (readEmpRow sampleEmpRow).status = some false ∧
    (readProdRow sampleProdRow).status = some true :=
  ⟨(c7_tristate_status emptyEmp emptyProd sampleStore sampleEmpRow sampleProdRow).2.2.2.2.1
      (by decide),
   (c7_tristate_status emptyEmp emptyProd sampleStore sampleEmpRow
      sampleProdRow).2.2.2.2.2.2.1 (by decide),
   (c7_tristate_status emptyEmp emptyProd sampleStore sampleEmpRow
      sampleProdRow).2.2.2.2.2.2.2.2.2.2.1 (by decide)⟩

theorem optConds_map_frag {α β : Type} (o : Option α) (mk : α → β) (g : β → String)
    (c : String) (h : ∀ v, g (mk v) = c) :
    (optConds o mk).map g = if o.isSome then [c] else [] := by
  cases o <;> simp [optConds, h]

theorem strConds_map_frag {β : Type} (o : Option String) (mk : String → β) (g : β → String)
    (c : String) (h : ∀ v, g (mk v) = c) :
    (strConds o mk).map g = if strPresent o then [c] else [] := by
  rcases o with _ | s
  · simp [strConds, strPresent]
  · by_cases hs : s.isEmpty <;> simp [strConds, strPresent, hs, h]

theorem strPresent_congr {o₁ o₂ : Option String} (hs : o₁.isSome = o₂.isSome)
    (he : o₁.map String.isEmpty = o₂.map String.isEmpty) :
    strPresent o₁ = strPresent o₂ := by
  rcases o₁ with _ | a <;> rcases o₂ with _ | b <;> simp_all [strPresent]

/-- The SQL fragments of the employee filter depend only on which fields
are present and, for free-text fields, whether the value is non-empty. -/
theorem empFrags (e : Employee) :
    (empFilterConds e).map EmpCond.frag =
      (if e.id.isSome then [" AND id = ?"] else []) ++
      (if strPresent e.name then [" AND name LIKE ?"] else []) ++
      (if strPresent e.surname then [" AND surname LIKE ?"] else []) ++
      (if e.position.isSome then [" AND position = ?"] else []) ++
      (if e.department.isSome then [" AND department = ?"] else []) ++
      (if e.shift.isSome then [" AND shift = ?"] else []) ++
      (if e.salary.isSome then [" AND salary = ?"] else []) ++
      (if e.phone_number.isSome then [" AND phone_number = ?"] else []) ++
      (if e.email.isSome then [" AND email = ?"] else []) ++
      (if e.status.isSome then [" AND status = ?"] else []) ++
      (if strPresent e.note then [" AND note LIKE ?"] else []) ++
      (if e.hire_date.isSome then [" AND hire_date = ?"] else []) := by
  unfold empFilterConds
  simp only [List.map_append]
  rw [optConds_map_frag e.id EmpCond.cid EmpCond.frag " AND id = ?" (fun v => rfl),
    strConds_map_frag e.name EmpCond.cname EmpCond.frag " AND name LIKE ?" (fun v => rfl),
    strConds_map_frag e.surname EmpCond.csurname EmpCond.frag " AND surname LIKE ?"
      (fun v => rfl),
    optConds_map_frag e.position EmpCond.cposition EmpCond.frag " AND position = ?"
      (fun v => rfl),
    optConds_map_frag e.department EmpCond.cdepartment EmpCond.frag " AND department = ?"
      (fun v => rfl),
    optConds_map_frag e.shift EmpCond.cshift EmpCond.frag " AND shift = ?" (fun v => rfl),
    optConds_map_frag e.salary EmpCond.csalary EmpCond.frag " AND salary = ?" (fun v => rfl),
    optConds_map_frag e.phone_number EmpCond.cphone EmpCond.frag " AND phone_number = ?"
      (fun v => rfl),
    optConds_map_frag e.email EmpCond.cemail EmpCond.frag " AND email = ?" (fun v => rfl),
    optConds_map_frag e.status EmpCond.cstatus EmpCond.frag " AND status = ?" (fun v => rfl),
    strConds_map_frag e.note EmpCond.cnote EmpCond.frag " AND note LIKE ?" (fun v => rfl),
    optConds_map_frag e.hire_date EmpCond.chire EmpCond.frag " AND hire_date = ?"
      (fun v => rfl)]

/-- The SQL fragments of the product filter depend only on which fields
are present and, for free-text fields, whether the value is non-empty. -/
theorem prodFrags (p : Product) :
    (prodFilterConds p).map ProdCond.frag =
      (if p.id.isSome then [" AND id = ?"] else []) ++
      (if strPresent p.name then [" AND name LIKE ?"] else []) ++
      (if p.category.isSome then [" AND category = ?"] else []) ++
      (if p.quantity.isSome then [" AND quantity = ?"] else []) ++
      (if p.status.isSome then [" AND status = ?"] else []) ++
      (if p.bar_code.isSome then [" AND bar_code = ?"] else []) ++
      (if p.cost_price.isSome then [" AND cost_price = ?"] else []) ++
      (if p.sell_price.isSome then [" AND sell_price = ?"] else []) ++
      (if strPresent p.description then [" AND description LIKE ?"] else []) ++
      (if p.brand.isSome then [" AND brand = ?"] else []) ++
      (if p.supplier.isSome then [" AND supplier = ?"] else []) ++
      (if p.employee_id.isSome then [" AND employee_id = ?"] else []) ++
      (if p.date_added.isSome then [" AND date_added = ?"] else []) ++
      (if p.date_remove.isSome then [" AND date_remove = ?"] else []) := by
  unfold prodFilterConds
  simp only [List.map_append]
  rw [optConds_map_frag p.id ProdCond.cid ProdCond.frag " AND id = ?" (fun v => rfl),
    strConds_map_frag p.name ProdCond.cname ProdCond.frag " AND name LIKE ?" (fun v => rfl),
    optConds_map_frag p.category ProdCond.ccategory ProdCond.frag " AND category = ?"
      (fun v => rfl),
    optConds_map_frag p.quantity ProdCond.cquantity ProdCond.frag " AND quantity = ?"
      (fun v => rfl),
    optConds_map_frag p.status ProdCond.cstatus ProdCond.frag " AND status = ?" (fun v => rfl),
    optConds_map_frag p.bar_code ProdCond.cbarcode ProdCond.frag " AND bar_code = ?"
      (fun v => rfl),
    optConds_map_frag p.cost_price ProdCond.ccost ProdCond.frag " AND cost_price = ?"
      (fun v => rfl),
    optConds_map_frag p.sell_price ProdCond.csell ProdCond.frag " AND sell_price = ?"
      (fun v => rfl),
    strConds_map_frag p.description ProdCond.cdescription ProdCond.frag
      " AND description LIKE ?" (fun v => rfl),
    optConds_map_frag p.brand ProdCond.cbrand ProdCond.frag " AND brand = ?" (fun v => rfl),
    optConds_map_frag p.supplier ProdCond.csupplier ProdCond.frag " AND supplier = ?"
      (fun v => rfl),
    optConds_map_frag p.employee_id ProdCond.cempid ProdCond.frag " AND employee_id = ?"
      (fun v => rfl),
    optConds_map_frag p.date_added ProdCond.cadded ProdCond.frag " AND date_added = ?"
      (fun v => rfl),
    optConds_map_frag p.date_remove ProdCond.cremoved ProdCond.frag " AND date_remove = ?"
      (fun v => rfl)]

/-- **C8.** Two filters of the same entity type with the same
field-presence pattern that agree on whether each free-text field is empty
generate the identical SQL query text: the supplied values influence only
the positional parameter list (`empQueryArgs`/`prodQueryArgs`, the value
projection of the condition list) and are never interpolated into the
query string. -/
theorem c8_sql_text_independent_of_values (e₁ e₂ : Employee) (p₁ p₂ : Product)
    (hep : empPresence e₁ = empPresence e₂)
    (hen : e₁.name.map String.isEmpty = e₂.name.map String.isEmpty)
    (hes : e₁.surname.map String.isEmpty = e₂.surname.map String.isEmpty)
    (heno : e₁.note.map String.isEmpty = e₂.note.map String.isEmpty)
    (hpp : prodPresence p₁ = prodPresence p₂)
    (hpn : p₁.name.map String.isEmpty = p₂.name.map String.isEmpty)
    (hpd : p₁.description.map String.isEmpty = p₂.description.map String.isEmpty) :
    empQueryString e₁ = empQueryString e₂ ∧
    prodQueryString p₁ = prodQueryString p₂ ∧
    empQueryArgs e₁ = (empFilterConds e₁).map EmpCond.value ∧
    prodQueryArgs p₁ = (prodFilterConds p₁).map ProdCond.value := by
  simp only [empPresence, List.cons.injEq, and_true] at hep
  obtain ⟨h1, h2, h3, h4, h5, h6, h7, h8, h9, h10, h11, h12⟩ := hep
  simp only [prodPresence, List.cons.injEq, and_true] at hpp
  obtain ⟨g1, g2, g3, g4, g5, g6, g7, g8, g9, g10, g11, g12, g13, g14⟩ := hpp
  refine ⟨?_, ?_, rfl, rfl⟩
  · unfold empQueryString
    rw [empFrags, empFrags, h1, strPresent_congr h2 hen, strPresent_congr h3 hes, h4, h5,
      h6, h7, h8, h9, h10, strPresent_congr h11 heno, h12]
  · unfold prodQueryString
    rw [prodFrags, prodFrags, g1, strPresent_congr g2 hpn, g3, g4, g5, g6, g7, g8,
      strPresent_congr g9 hpd, g10, g11, g12, g13, g14]

/-- **C8**, witness: two filters with equal shape but different values
produce the same SQL text. -/
theorem c8_sql_text_independent_of_values_witness :
    empQueryString { emptyEmp with name := some "Jana", position := some "Cashier" } =
      empQueryString { emptyEmp with name := some "Jan", position := some "Manager" } :=
  (c8_sql_text_independent_of_values
    { emptyEmp with name := some "Jana", position := some "Cashier" }
    { emptyEmp with name := some "Jan", position := some "Manager" }
    emptyProd emptyProd (by decide) (by decide) rfl rfl rfl rfl rfl).1

theorem add_readEmp (r : EmployeeRow) (hr : WFEmpRow r) (s : Store) :
    add_employee_to_store_db (readEmpRow r) s =
      some { s with
              employees := s.employees ++ [{ r with id := s.nextEmpId }],
              nextEmpId := s.nextEmpId + 1 } := by
  obtain ⟨id, nm, sn, pos, dep, sh, sal, ph, em, stt, nt, hd⟩ := r
  simp only [add_employee_to_store_db, readEmpRow]
  rcases hr with h | h | h <;> (simp only at h; subst h; simp)

theorem add_readProd (r : ProductRow) (hr : WFProdRow r) (s : Store) :
    add_product_to_store_db (readProdRow r) s =
      some { s with
              products := s.products ++ [{ r with id := s.nextProdId }],
              nextProdId := s.nextProdId + 1 } := by
  obtain ⟨hst, hq0, hq1, he0, he1⟩ := hr
  obtain ⟨id, nm, ct, qt, stt, bc, cp, sp, de, br, su, ei, da, dr⟩ := r
  simp only at hst hq0 hq1 he0 he1
  simp only [add_product_to_store_db, readProdRow]
  have hq : (((qt % ((2 : Int) ^ 32)).toNat : Nat) : Int) = qt := by
    rw [Int.emod_eq_of_lt hq0 hq1, Int.toNat_of_nonneg hq0]
  rcases ei with _ | v
  · rcases hst with h | h | h <;> subst h <;> simp [hq] <;> omega
  · simp only [Option.getD_some] at he0 he1
    have hv : (((v % ((2 : Int) ^ 32)).toNat : Nat) : Int) = v := by
      rw [Int.emod_eq_of_lt he0 he1, Int.toNat_of_nonneg he0]
    rcases hst with h | h | h <;> subst h <;> simp [hq, hv] <;> omega

theorem importEmps_reinserts (rows : List EmployeeRow) :
    ∀ s : Store, (∀ r ∈ rows, WFEmpRow r) →
      ∃ s', importEmployees (rows.map readEmpRow) s = some s' ∧
        s'.employees.map stripEmpId = (s.employees ++ rows).map stripEmpId ∧
        s'.products = s.products ∧ s'.nextProdId = s.nextProdId := by
  induction rows with
  | nil => exact fun s _ => ⟨s, rfl, by simp, rfl, rfl⟩
  | cons r rest ih =>
    intro s h
    rw [List.map_cons, importEmployees, add_readEmp r (h r (by simp)) s]
    obtain ⟨s', h1, h2, h3, h4⟩ := ih _ (fun x hx => h x (by simp [hx]))
    refine ⟨s', h1, ?_, h3, h4⟩
    rw [h2]
    simp [stripEmpId]

theorem importProds_reinserts (rows : List ProductRow) :
    ∀ s : Store, (∀ r ∈ rows, WFProdRow r) →
      ∃ s', importProducts (rows.map readProdRow) s = some s' ∧
        s'.products.map stripProdId = (s.products ++ rows).map stripProdId ∧
        s'.employees = s.employees ∧ s'.nextEmpId = s.nextEmpId := by
  induction rows with
  | nil => exact fun s _ => ⟨s, rfl, by simp, rfl, rfl⟩
  | cons r rest ih =>
    intro s h
    rw [List.map_cons, importProducts, add_readProd r (h r (by simp)) s]
    obtain ⟨s', h1, h2, h3, h4⟩ := ih _ (fun x hx => h x (by simp [hx]))
    refine ⟨s', h1, ?_, h3, h4⟩
    rw [h2]
    simp [stripProdId]

/-- **C9.** Exporting all rows of a well-formed store (status flags stored
as 0/1/NULL, `u32`-typed columns in range — the only values the
application itself ever writes) and importing the snapshot into a fresh
empty store reproduces the same employee and product rows up to the
reassigned ids; and every create inserts exactly one new row at the
server-assigned id, ignoring any client-supplied id. -/
theorem c9_export_import_roundtrip (st : Store) (h : WFStore st) :
    (∃ st', importStore (exportStore st) emptyStore = some st' ∧
      st'.employees.map stripEmpId = st.employees.map stripEmpId ∧
      st'.products.map stripProdId = st.products.map stripProdId) ∧
    (∀ (e : Employee) (k : Option Nat) (s : Store),
      add_employee_to_store_db { e with id := k } s = add_employee_to_store_db e s) ∧
    (∀ (p : Product) (k : Option Nat) (s : Store),
      add_product_to_store_db { p with id := k } s = add_product_to_store_db p s) ∧
    (∀ (e : Employee) (s s' : Store), add_employee_to_store_db e s = some s' →
      ∃ r, s'.employees = s.employees ++ [r] ∧ r.id = s.nextEmpId ∧
        s'.products = s.products) ∧
    (∀ (p : Product) (s s' : Store), add_product_to_store_db p s = some s' →
      ∃ r, s'.products = s.products ++ [r] ∧ r.id = s.nextProdId ∧
        s'.employees = s.employees) := by
  refine ⟨?_, fun e k s => rfl, fun p k s => rfl, ?_, ?_⟩
  · obtain ⟨s₁, h1, h2, h3, h4⟩ := importEmps_reinserts st.employees emptyStore h.1
    obtain ⟨s₂, g1, g2, g3, g4⟩ := importProds_reinserts st.products s₁ h.2
    refine ⟨s₂, ?_, ?_, ?_⟩
    · simp only [importStore, exportStore, get_employees_unfiltered, get_products_unfiltered,
        h1, Option.some_bind]
      exact g1
    · rw [g3, h2]
      simp [emptyStore]
    · rw [g2, h3]
      simp [emptyStore]
  · intro e s s' hadd
    rcases hn : e.name with _ | n <;> rcases hs : e.surname with _ | sn <;>
      rcases hp : e.position with _ | pos <;>
      simp [add_employee_to_store_db, hn, hs, hp] at hadd
    subst hadd
    exact ⟨_, rfl, rfl, rfl⟩
  · intro p s s' hadd
    rcases hn : p.name with _ | n <;> rcases hc : p.category with _ | c <;>
      rcases hq : p.quantity with _ | q <;> rcases hb : p.bar_code with _ | b <;>
      rcases hcp : p.cost_price with _ | cp <;> rcases hsp : p.sell_price with _ | sp <;>
      simp [add_product_to_store_db, hn, hc, hq, hb, hcp, hsp] at hadd
    subst hadd
    exact ⟨_, rfl, rfl, rfl⟩

/-- **C9**, witness: the round trip on the concrete sample store. -/
theorem c9_export_import_roundtrip_witness :
    ∃ st', importStore (exportStore sampleStore) emptyStore = some st' ∧
      st'.employees.map stripEmpId = sampleStore.employees.map stripEmpId ∧
      st'.products.map stripProdId = sampleStore.products.map stripProdId :=
  (c9_export_import_roundtrip sampleStore (by decide)).1

/-- **C10.** The `u32`-typed columns (`id`, `quantity`, `employee_id`) are
read back from the store's 64-bit integers through an unchecked `as u32`
cast, i.e. reduction modulo `2^32`: for every stored value `v` the entity
field produced by the row mapping of `get_employees`/`get_products` is
`v % 2^32` — no clamping, saturation or rejection, as the concrete
out-of-range and negative instances show (`2^32 + 5 ↦ 5`,
`-1 ↦ 2^32 - 1`). -/
theorem c10_silent_u32_narrowing (r : EmployeeRow) (q : ProductRow) :
    (readEmpRow r).id = some ((r.id % ((2 : Int) ^ 32)).toNat) ∧
    (readProdRow q).id = some ((q.id % ((2 : Int) ^ 32)).toNat) ∧
    (readProdRow q).quantity = some ((q.quantity % ((2 : Int) ^ 32)).toNat) ∧
    (readProdRow q).employee_id = q.employee_id.map (fun v => (v % ((2 : Int) ^ 32)).toNat) ∧
    (readProdRow { q with quantity := 2 ^ 32 + 5 }).quantity = some 5 ∧
    (readProdRow { q with quantity := -1 }).quantity = some (2 ^ 32 - 1) ∧
    (readEmpRow { r with id := 2 ^ 32 + 5 }).id = some 5 := by
  refine ⟨rfl, rfl, rfl, rfl, ?_, ?_, ?_⟩ <;> simp [readEmpRow, readProdRow]
